import Mathlib

/-!
Verification development for the boundary engine in `src/cython/common.hpp`
of the JaroWinkler repository: the encoded-buffer abstraction, the
multi-encoding visitor dispatch (`visit` / `visitor`), the type-erased
scorer context (`scorer_init_f64` / `scorer_func_wrapper_f64`), and the
exception-to-host-error bridge (`CppExn2PyErr`).

Modelling conventions:
* Machine pointers are modelled as natural numbers in element units, so the
  C++ pointer arithmetic `data + length` becomes `data + length` on `Nat`.
* The Python error indicator (`PyErr_Occurred` / `PyErr_SetString`) is an
  explicit `Option PyErr` state threaded through the boundary functions.
* C++ exceptions are an inductive type `CppExn` covering the exception
  classes of the catch cascade in `CppExn2PyErr`; propagation of exceptions
  through a function is modelled with `Except CppExn`.
* A bare `throw;` outside of an active exception calls `std::terminate` in
  C++; this outcome is the `BridgeResult.terminated` constructor.
-/

namespace JaroWinkler

/-- Element-width tag of an encoded buffer.  The C enum `RF_StringType`
(declared in the external `rapidfuzz_capi.h`) registers exactly four values;
`invalid n` stands for any other value the underlying integer type can hold,
which `visit` must reject. -/
inductive RF_StringType where
  | RF_UINT8
  | RF_UINT16
  | RF_UINT32
  | RF_UINT64
  | invalid (n : Nat)
deriving DecidableEq, Repr

/-- Width in bits of a registered tag, `none` for an unregistered tag. -/
def widthBits : RF_StringType → Option Nat
  | .RF_UINT8 => some 8
  | .RF_UINT16 => some 16
  | .RF_UINT32 => some 32
  | .RF_UINT64 => some 64
  | .invalid _ => none

/-- The boundary buffer struct `RF_String` (spec name: EncodedBuffer).
Modelled from the spec: the struct itself lives in the external
`rapidfuzz_capi.h`; the spec ABI lists the fields
`{ owner, width (kind), data, length, release (dtor) }`.  `data` is a raw
pointer modelled as a number (0 = null); `dtor` and `owner` are optional
(null = `none`), carrying opaque identities so that invocations of the
release callback can be observed. -/
structure RF_String where
  owner : Option Nat
  kind : RF_StringType
  data : Nat
  length : Nat
  dtor : Option Nat
deriving DecidableEq, Repr

/-- A typed pointer produced by dispatch: the raw `data` pointer
reinterpreted at a given element width.  `addr` is in element units, so a
range of `n` elements starting at `p` ends at `p + n`. -/
structure TypedPtr where
  width : Nat
  addr : Nat
deriving DecidableEq, Repr

/-- C++ exceptions that can reach the catch cascade of `CppExn2PyErr`
(common.hpp lines 24-57), one constructor per most-derived class relevant
to the cascade.  `PythonTypeError` (lines 10-21) derives from
`std::bad_typeid`; `length_error` and plain `logic_error` / `runtime_error`
have no dedicated handler and fall through to the `std::exception` case;
`foreign` is a thrown object not derived from `std::exception` (caught only
by `catch (...)`), which carries no `what()` message. -/
inductive CppExn where
  | badAlloc (msg : String)
  | badCast (msg : String)
  | badTypeid (msg : String)
  | pythonTypeError (msg : String)
  | domainError (msg : String)
  | invalidArgument (msg : String)
  | iosFailure (msg : String)
  | outOfRange (msg : String)
  | overflowError (msg : String)
  | rangeError (msg : String)
  | underflowError (msg : String)
  | lengthError (msg : String)
  | logicError (msg : String)
  | runtimeError (msg : String)
  | otherStd (msg : String)
  | foreign
deriving DecidableEq, Repr

/-- The `what()` message of an exception; `none` for a non-`std::exception`
object. -/
def exnWhat : CppExn → Option String
  | .badAlloc m => some m
  | .badCast m => some m
  | .badTypeid m => some m
  | .pythonTypeError m => some m
  | .domainError m => some m
  | .invalidArgument m => some m
  | .iosFailure m => some m
  | .outOfRange m => some m
  | .overflowError m => some m
  | .rangeError m => some m
  | .underflowError m => some m
  | .lengthError m => some m
  | .logicError m => some m
  | .runtimeError m => some m
  | .otherStd m => some m
  | .foreign => none

/-- The Python exception types that `CppExn2PyErr` installs
(`PyExc_MemoryError`, ..., `PyExc_RuntimeError`). -/
inductive PyExcType where
  | MemoryError
  | TypeError
  | ValueError
  | IOError
  | IndexError
  | OverflowError
  | ArithmeticError
  | RuntimeError
deriving DecidableEq, Repr

/-- A pending Python error: exception type plus message, as set by
`PyErr_SetString`. -/
structure PyErr where
  ty : PyExcType
  msg : String
deriving DecidableEq, Repr

/-- Which Python error `CppExn2PyErr`'s catch cascade installs for each
exception.  C++ handler matching picks the first handler whose type is a
base of (or equal to) the thrown type, so: `PythonTypeError` is caught by
the `std::bad_typeid` handler; `length_error`, plain `logic_error`, plain
`runtime_error` and every other `std::exception` are caught by the
`std::exception` handler (RuntimeError); a non-`std` object is caught by
`catch (...)` with the fixed message "Unknown exception". -/
def classifyExn : CppExn → PyErr
  | .badAlloc m => ⟨.MemoryError, m⟩
  | .badCast m => ⟨.TypeError, m⟩
  | .badTypeid m => ⟨.TypeError, m⟩
  | .pythonTypeError m => ⟨.TypeError, m⟩
  | .domainError m => ⟨.ValueError, m⟩
  | .invalidArgument m => ⟨.ValueError, m⟩
  | .iosFailure m => ⟨.IOError, m⟩
  | .outOfRange m => ⟨.IndexError, m⟩
  | .overflowError m => ⟨.OverflowError, m⟩
  | .rangeError m => ⟨.ArithmeticError, m⟩
  | .underflowError m => ⟨.ArithmeticError, m⟩
  | .lengthError m => ⟨.RuntimeError, m⟩
  | .logicError m => ⟨.RuntimeError, m⟩
  | .runtimeError m => ⟨.RuntimeError, m⟩
  | .otherStd m => ⟨.RuntimeError, m⟩
  | .foreign => ⟨.RuntimeError, "Unknown exception"⟩

/-- Outcome of a call to `CppExn2PyErr`: either a (possibly updated) Python
error state, or process termination (`std::terminate`, reached when the
bare `throw;` finds no exception being handled). -/
inductive BridgeResult where
  | ok (state : Option PyErr)
  | terminated
deriving DecidableEq, Repr

/-- `CppExn2PyErr` (common.hpp lines 24-57).  `pending` is the Python error
state (`PyErr_Occurred`), `current` the exception being handled at the call
site (`none` if no exception is propagating).  If an error is already
pending the try block completes without throwing and the state is left
untouched; otherwise `throw;` rethrows the current exception into the
cascade, or — with no current exception — calls `std::terminate`. -/
def CppExn2PyErr (pending : Option PyErr) (current : Option CppExn) : BridgeResult :=
  match pending with
  | some p => .ok (some p)
  | none =>
    match current with
    | some e => .ok (some (classifyExn e))
    | none => .terminated

/-- State-level view of `CppExn2PyErr` when called from a catch handler,
where an exception `e` is necessarily being handled (so termination is
impossible); used to thread the error state through the boundary wrappers. -/
def CppExn2PyErrSt (pending : Option PyErr) (e : CppExn) : Option PyErr :=
  match pending with
  | some p => some p
  | none => some (classifyExn e)

/-- `visit` (common.hpp lines 125-139): switch on `str.kind`; each of the
four registered cases reinterprets `str.data` at the matching width and
calls `f(data, data + str.length)`; the default case throws
`std::logic_error("Invalid string type")`.  The callback may itself throw,
hence its `Except` codomain. -/
def visit {α : Type} (str : RF_String) (f : TypedPtr → TypedPtr → Except CppExn α) :
    Except CppExn α :=
  match str.kind with
  | .RF_UINT8 => f ⟨8, str.data⟩ ⟨8, str.data + str.length⟩
  | .RF_UINT16 => f ⟨16, str.data⟩ ⟨16, str.data + str.length⟩
  | .RF_UINT32 => f ⟨32, str.data⟩ ⟨32, str.data + str.length⟩
  | .RF_UINT64 => f ⟨64, str.data⟩ ⟨64, str.data + str.length⟩
  | .invalid _ => .error (.logicError "Invalid string type")

/-- `visitor` (common.hpp lines 141-149): dispatch on `str2` first, then in
that continuation dispatch on `str1`, passing `str1`'s typed range to `f`
followed by `str2`'s. -/
def visitor {α : Type} (str1 str2 : RF_String)
    (f : TypedPtr → TypedPtr → TypedPtr → TypedPtr → Except CppExn α) :
    Except CppExn α :=
  visit str2 (fun first last => visit str1 (fun f1 l1 => f f1 l1 first last))

/-- Observable resource events of the wrapper: invoking a buffer's release
callback (`string.dtor(&string)`) and decrementing a Python owner reference
(`Py_XDECREF(obj)`), each identified by the opaque id stored in the field. -/
inductive Event where
  | release (dtorId : Nat)
  | decref (objId : Nat)
deriving DecidableEq, Repr

/-- `RF_StringWrapper` (common.hpp lines 66-118, spec name:
OwnershipWrapper): one `RF_String` plus the Python object `obj` that owns
the underlying storage (`none` = null pointer). -/
structure RF_StringWrapper where
  string : RF_String
  obj : Option Nat
deriving DecidableEq, Repr

/-- The default-constructed / moved-from sentinel wrapper:
`string = {nullptr, (RF_StringType)0, nullptr, 0, nullptr}`, `obj = nullptr`.
The sentinel's width tag (the enum value 0) never matters because its null
`dtor` makes destruction a no-op; it is rendered here as the first enum
value. -/
def nullWrapper : RF_StringWrapper :=
  ⟨⟨none, .RF_UINT8, 0, 0, none⟩, none⟩

/-- Destructor of `RF_StringWrapper` (lines 105-110): if `string.dtor` is
non-null invoke it, then `Py_XDECREF(obj)` (a decrement only when `obj` is
non-null).  The result is the ordered list of resource events. -/
def wrapperDtor (w : RF_StringWrapper) : List Event :=
  (match w.string.dtor with
   | some d => [Event.release d]
   | none => []) ++
  (match w.obj with
   | some o => [Event.decref o]
   | none => [])

/-- Move constructor (lines 85-89): the new wrapper is default-constructed
and then swapped with `other`, so the new wrapper holds `other`'s old state
and `other` becomes the sentinel.  Returns `(new wrapper, other after the
move)`; no resource event occurs. -/
def moveCtor (other : RF_StringWrapper) : RF_StringWrapper × RF_StringWrapper :=
  (other, nullWrapper)

/-- Move assignment (lines 91-103).  `sameAddr` models the pointer test
`&other == this`; when it holds, `self` and `other` are the same object and
the body is skipped entirely.  Otherwise the destination first releases the
resources it holds (dtor, then `Py_XDECREF`), adopts `other`'s fields, and
resets `other` to the sentinel.  Returns
`(self after, other after, resource events)`. -/
def moveAssign (self other : RF_StringWrapper) (sameAddr : Bool) :
    RF_StringWrapper × RF_StringWrapper × List Event :=
  if sameAddr then
    (self, other, [])
  else
    (⟨other.string, other.obj⟩,
     nullWrapper,
     (match self.string.dtor with
      | some d => [Event.release d]
      | none => []) ++
     (match self.obj with
      | some o => [Event.decref o]
      | none => []))

/-- Iterated move construction: move the buffer through `n` successive
wrappers.  Returns the final holder and the list of moved-from husks
(most recent first). -/
def moveChainFrom (w : RF_StringWrapper) : Nat → RF_StringWrapper × List RF_StringWrapper
  | 0 => (w, [])
  | n + 1 =>
    let p := moveChainFrom w n
    let m := moveCtor p.1
    (m.1, m.2 :: p.2)

/-- Destroy a list of wrappers in order, concatenating their resource
events. -/
def destroyAll : List RF_StringWrapper → List Event
  | [] => []
  | w :: ws => wrapperDtor w ++ destroyAll ws

/-- Number of release-callback invocations in an event list. -/
def countRelease (evs : List Event) : Nat :=
  evs.countP fun e =>
    match e with
    | .release _ => true
    | .decref _ => false

/-- Storage kind of a Python `str` object (`PyUnicode_KIND`): 1-, 2- or
4-byte code units. -/
inductive PyUnicodeKind where
  | oneByte
  | twoByte
  | fourByte
deriving DecidableEq, Repr

/-- A Python object as seen by `validate_string` / `convert_string`:
a `bytes` object (data pointer + byte count), a `str` object (storage kind,
data pointer, code-unit count), or any other object. -/
inductive PyValue where
  | bytes (addr : Nat) (byteCount : Nat)
  | unicode (storage : PyUnicodeKind) (addr : Nat) (codeUnits : Nat)
  | other
deriving DecidableEq, Repr

/-- `validate_string` (common.hpp lines 173-191): accept `bytes` and `str`
objects, throw `PythonTypeError(err)` for anything else.  (The
`PyUnicode_READY` branch is compiled only for Python < 3.10 and is elided.) -/
def validate_string (v : PyValue) (err : String) : Except CppExn Unit :=
  match v with
  | .bytes _ _ => .ok ()
  | .unicode _ _ _ => .ok ()
  | .other => .error (.pythonTypeError err)

/-- `convert_string` (common.hpp lines 193-225): a `bytes` object becomes a
width-8 buffer over its bytes; a `str` object becomes a buffer whose tag
follows `PyUnicode_KIND` (1-byte → RF_UINT8, 2-byte → RF_UINT16, default →
RF_UINT32) with `length = PyUnicode_GET_LENGTH`.  Neither branch installs a
dtor or an owner.  The function is only called on values accepted by
`validate_string`; applying it to any other object is undefined behavior in
the source, rendered here as the sentinel buffer. -/
def convert_string (v : PyValue) : RF_String :=
  match v with
  | .bytes a n => ⟨none, .RF_UINT8, a, n, none⟩
  | .unicode .oneByte a n => ⟨none, .RF_UINT8, a, n, none⟩
  | .unicode .twoByte a n => ⟨none, .RF_UINT16, a, n, none⟩
  | .unicode .fourByte a n => ⟨none, .RF_UINT32, a, n, none⟩
  | .other => ⟨none, .RF_UINT8, 0, 0, none⟩

/-- The host-to-buffer conversion pipeline as the callers use it: validate
the Python object, then convert it. -/
def convert_py_string (v : PyValue) (err : String) : Except CppExn RF_String :=
  (validate_string v err).map fun _ => convert_string v

/-- Outcome of `scorer_func_wrapper_f64`: the boolean return value, the
contents of the `double* result` output slot after the call, and the Python
error state after the call. -/
structure ComputeOutcome (Score : Type) where
  ok : Bool
  slot : Option Score
  py : Option PyErr
deriving DecidableEq, Repr

/-- `scorer_func_wrapper_f64` (common.hpp lines 233-248).  `ratio` is the
cached algorithm's scoring operation `scorer.ratio(first, last, cutoff)`
(external, and allowed to throw).  The try block dispatches the query
buffer, runs `ratio`, and writes the score through the output slot; any
exception is caught by `catch (...)`, handed to `CppExn2PyErr` (under the
GIL), and the wrapper returns `false` with the slot untouched. -/
def scorer_func_wrapper_f64 {Score : Type}
    (ratio : TypedPtr → TypedPtr → Score → Except CppExn Score)
    (str : RF_String) (score_cutoff : Score) (slot : Option Score)
    (pending : Option PyErr) : ComputeOutcome Score :=
  match visit str (fun first last => ratio first last score_cutoff) with
  | .ok v => ⟨true, some v, pending⟩
  | .error e => ⟨false, slot, CppExn2PyErrSt pending e⟩

/-- `get_ScorerContext_f64` (common.hpp lines 250-259): heap-allocate a
`CachedScorer` from the typed range (`mk`, the external constructor, may
throw) and wrap it with the `compute`/`destroy` function pointers.  The
model keeps the allocated scorer state `S` itself as the context. -/
def get_ScorerContext_f64 {S : Type} (mk : TypedPtr → TypedPtr → Except CppExn S)
    (first last : TypedPtr) : Except CppExn S :=
  mk first last

/-- Outcome of `scorer_init_f64`: the boolean return value, the context
written through `*self` (`none` = left unwritten), the Python error state
after the call, and the number of live heap allocations performed. -/
structure InitOutcome (S : Type) where
  ok : Bool
  ctx : Option S
  py : Option PyErr
  allocs : Nat
deriving DecidableEq, Repr

/-- `scorer_init_f64` (common.hpp lines 261-280).  `strings` is the
caller's buffer array (a map from index to buffer, so `*strings` is
`strings 0`).  If `str_count != 1` the function throws
`std::logic_error("Only str_count == 1 supported")` before touching
`strings` or allocating; otherwise it dispatches `*strings` and builds the
context (one heap allocation).  Every exception is caught by `catch (...)`,
handed to `CppExn2PyErr`, and the function returns `false` with `*self`
unwritten. -/
def scorer_init_f64 {S : Type} (mk : TypedPtr → TypedPtr → Except CppExn S)
    (str_count : Nat) (strings : Nat → RF_String) (pending : Option PyErr) :
    InitOutcome S :=
  if str_count ≠ 1 then
    ⟨false, none, CppExn2PyErrSt pending (.logicError "Only str_count == 1 supported"), 0⟩
  else
    match visit (strings 0) (fun first last => get_ScorerContext_f64 mk first last) with
    | .ok s => ⟨true, some s, pending, 1⟩
    | .error e => ⟨false, none, CppExn2PyErrSt pending e, 0⟩

/-- The spec's eight host error categories (spec §3, HostErrorCategory). -/
inductive HostErrorCategory where
  | outOfMemory
  | typeMismatch
  | valueDomain
  | ioFailure
  | indexOutOfRange
  | arithmeticRange
  | genericRuntime
  | unknown
deriving DecidableEq, Repr

/-- Modelled from the spec (§7 mapping, for comparison with the code's
`classifyExn`): out-of-memory condition → out-of-memory; type/cast mismatch
→ type-mismatch; invalid-argument / domain violation → value-domain; I/O
failure → io-failure; out-of-range index → index-out-of-range; arithmetic
overflow/underflow/range violation → arithmetic-range; any other recognized
failure → generic-runtime; unrecognized/foreign failure → unknown. -/
def specCategory : CppExn → HostErrorCategory
  | .badAlloc _ => .outOfMemory
  | .badCast _ => .typeMismatch
  | .badTypeid _ => .typeMismatch
  | .pythonTypeError _ => .typeMismatch
  | .domainError _ => .valueDomain
  | .invalidArgument _ => .valueDomain
  | .iosFailure _ => .ioFailure
  | .outOfRange _ => .indexOutOfRange
  | .overflowError _ => .arithmeticRange
  | .rangeError _ => .arithmeticRange
  | .underflowError _ => .arithmeticRange
  | .lengthError _ => .genericRuntime
  | .logicError _ => .genericRuntime
  | .runtimeError _ => .genericRuntime
  | .otherStd _ => .genericRuntime
  | .foreign => .unknown

/-- How the code realizes each spec category as a Python exception type.
The realization is not one-to-one: `arithmetic-range` is realized as
`OverflowError` for `std::overflow_error` and as `ArithmeticError` for
`std::underflow_error` / `std::range_error` (in Python, `OverflowError` is
a subclass of `ArithmeticError`); both `generic-runtime` and `unknown` are
realized as `RuntimeError`, distinguished only by the message source. -/
def realizesCat : PyExcType → HostErrorCategory → Bool
  | .MemoryError, .outOfMemory => true
  | .TypeError, .typeMismatch => true
  | .ValueError, .valueDomain => true
  | .IOError, .ioFailure => true
  | .IndexError, .indexOutOfRange => true
  | .OverflowError, .arithmeticRange => true
  | .ArithmeticError, .arithmeticRange => true
  | .RuntimeError, .genericRuntime => true
  | .RuntimeError, .unknown => true
  | _, _ => false

/-- Does `widthBits` recognize the tag (i.e. is it one of the four
registered cases of `visit`)? -/
def recognizedKind (k : RF_StringType) : Bool :=
  (widthBits k).isSome

/-- The typed begin pointer `dispatch` hands to the callback for a buffer
with a recognized tag. -/
def beginPtr (str : RF_String) : TypedPtr :=
  ⟨(widthBits str.kind).getD 0, str.data⟩

/-- The typed end pointer `dispatch` hands to the callback:
`begin + length` in element units. -/
def endPtr (str : RF_String) : TypedPtr :=
  ⟨(widthBits str.kind).getD 0, str.data + str.length⟩

/-- C1: for a buffer whose tag is one of the four registered widths,
`visit` invokes the callback exactly once — the result is the callback's
value on the single typed range `[data, data + length)` at the matching
width, for every callback — and for any other tag value `visit` throws
`std::logic_error("Invalid string type")` for every callback, so the
callback is never invoked. -/
theorem visit_dispatches_once_or_fails (str : RF_String) :
    (∀ w, widthBits str.kind = some w →
      ∀ (α : Type) (g : TypedPtr → TypedPtr → α),
        visit str (fun b e => Except.ok (g b e)) =
          Except.ok (g ⟨w, str.data⟩ ⟨w, str.data + str.length⟩)) ∧
    (widthBits str.kind = none →
      ∀ (α : Type) (f : TypedPtr → TypedPtr → Except CppExn α),
        visit str f = Except.error (CppExn.logicError "Invalid string type")) := by
  constructor
  · intro w hw α g
    cases hk : str.kind <;>
      simp [widthBits, hk] at hw <;>
      simp [visit, hk, hw]
  · intro hw α f
    cases hk : str.kind <;>
      simp [widthBits, hk] at hw
    simp [visit, hk]

/-- Witness for C1: a concrete width-8 buffer of 3 elements at address 5 is
dispatched to the range `[⟨8,5⟩, ⟨8,8⟩)`, and a buffer with the unregistered
tag value 7 makes `visit` throw the logic failure. -/
theorem visit_dispatches_once_or_fails_witness :
    visit ⟨none, .RF_UINT8, 5, 3, none⟩ (fun b e => Except.ok (b, e)) =
      Except.ok (⟨8, 5⟩, ⟨8, 8⟩) ∧
    visit (α := Unit) ⟨none, .invalid 7, 5, 3, none⟩ (fun b e => Except.ok (b, e).1.1) =
      Except.error (CppExn.logicError "Invalid string type") :=
  ⟨(visit_dispatches_once_or_fails ⟨none, .RF_UINT8, 5, 3, none⟩).1 8 rfl _ _,
   (visit_dispatches_once_or_fails ⟨none, .invalid 7, 5, 3, none⟩).2 rfl _ _⟩

/-- C6: for any two buffers with recognized tags (all 16 width pairings),
`visitor` is definitionally the composition of two single dispatches —
outer dispatch on `str2`, inner dispatch on `str1` inside that
continuation — and the callback is invoked exactly once, with `str1`'s
typed range followed by `str2`'s typed range. -/
theorem visitor_composes_dispatches (str1 str2 : RF_String) (w1 w2 : Nat)
    (h1 : widthBits str1.kind = some w1) (h2 : widthBits str2.kind = some w2) :
    (∀ (α : Type) (g : TypedPtr → TypedPtr → TypedPtr → TypedPtr → α),
      visitor str1 str2 (fun a b c d => Except.ok (g a b c d)) =
        Except.ok (g ⟨w1, str1.data⟩ ⟨w1, str1.data + str1.length⟩
          ⟨w2, str2.data⟩ ⟨w2, str2.data + str2.length⟩)) ∧
    (∀ (α : Type) (f : TypedPtr → TypedPtr → TypedPtr → TypedPtr → Except CppExn α),
      visitor str1 str2 f =
        visit str2 (fun b2 e2 => visit str1 (fun b1 e1 => f b1 e1 b2 e2))) := by
  constructor
  · intro α g
    cases hk1 : str1.kind <;> simp [widthBits, hk1] at h1 <;>
      cases hk2 : str2.kind <;> simp [widthBits, hk2] at h2 <;>
      subst h1 <;> subst h2 <;>
      simp [visitor, visit, hk1, hk2]
  · intro α f
    rfl

/-- Witness for C6: a width-16 buffer (3 elements at address 10) paired
with a width-32 buffer (2 elements at address 100) invokes the callback
once with the first buffer's range followed by the second's. -/
theorem visitor_composes_dispatches_witness :
    visitor ⟨none, .RF_UINT16, 10, 3, none⟩ ⟨none, .RF_UINT32, 100, 2, none⟩
        (fun a b c d => Except.ok (a, b, c, d)) =
      Except.ok (⟨16, 10⟩, ⟨16, 13⟩, ⟨32, 100⟩, ⟨32, 102⟩) :=
  (visitor_composes_dispatches ⟨none, .RF_UINT16, 10, 3, none⟩
    ⟨none, .RF_UINT32, 100, 2, none⟩ 16 32 rfl rfl).1 _ _

/-- C2: whenever the host already has a pending error, `CppExn2PyErr`
leaves that error (type and message) completely unchanged, whatever
exception is or is not propagating; the state is only ever overwritten when
no error was pending. -/
theorem bridge_preserves_pending (p : PyErr) (current : Option CppExn) :
    CppExn2PyErr (some p) current = BridgeResult.ok (some p) := by
  rfl

/-- C3: with no pending host error, `CppExn2PyErr` installs exactly the
Python error given by the catch cascade (`classifyExn`); the installed
exception type realizes precisely the spec's category for that exception
(§7 mapping), and for every `std::exception` the installed message is the
exception's `what()` message. -/
theorem bridge_classifies_exception (e : CppExn) :
    CppExn2PyErr none (some e) = BridgeResult.ok (some (classifyExn e)) ∧
    realizesCat (classifyExn e).ty (specCategory e) = true ∧
    (∀ m, exnWhat e = some m → (classifyExn e).msg = m) := by
  refine ⟨rfl, ?_, ?_⟩
  · cases e <;> rfl
  · intro m hm
    cases e <;> simp [exnWhat] at hm <;> simp [classifyExn, hm]

/-- Witness for C3: an out-of-range exception with message "idx" installs
`IndexError` with message "idx", which realizes the spec category
index-out-of-range. -/
theorem bridge_classifies_exception_witness :
    CppExn2PyErr none (some (.outOfRange "idx")) =
      BridgeResult.ok (some ⟨.IndexError, "idx"⟩) ∧
    realizesCat PyExcType.IndexError HostErrorCategory.indexOutOfRange = true ∧
    (classifyExn (.outOfRange "idx")).msg = "idx" :=
  ⟨(bridge_classifies_exception (.outOfRange "idx")).1,
   (bridge_classifies_exception (.outOfRange "idx")).2.1,
   (bridge_classifies_exception (.outOfRange "idx")).2.2 "idx" rfl⟩

/-- C9 counterexample: invoked with no pending host error and no
propagating exception, `CppExn2PyErr` does not install the
unknown-category failure (`RuntimeError`, "Unknown exception"); the bare
`throw;` finds no exception to rethrow and the process terminates. -/
theorem bridge_no_exception_counterexample :
    CppExn2PyErr none none = BridgeResult.terminated ∧
    CppExn2PyErr none none ≠
      BridgeResult.ok (some ⟨PyExcType.RuntimeError, "Unknown exception"⟩) := by
  constructor
  · rfl
  · decide

/-- C9 amended: invoked with no pending host error and no propagating
exception, `CppExn2PyErr` evaluates a bare `throw;` with no exception being
handled, which calls `std::terminate` — the process crashes and no host
error is installed. -/
theorem bridge_no_exception_terminates :
    CppExn2PyErr none none = BridgeResult.terminated := by
  rfl

/-- After any number of moves, the buffer's state sits unchanged in the
final holder and every moved-from wrapper is the null sentinel. -/
theorem moveChainFrom_spec (w : RF_StringWrapper) (n : Nat) :
    (moveChainFrom w n).1 = w ∧
    (moveChainFrom w n).2 = List.replicate n nullWrapper := by
  induction n with
  | zero => exact ⟨rfl, rfl⟩
  | succ n ih =>
    simp [moveChainFrom, moveCtor, ih.1, ih.2, List.replicate_succ]

/-- Destroying the null sentinel performs no resource event. -/
theorem wrapperDtor_null : wrapperDtor nullWrapper = [] := by
  rfl

/-- Destroying any number of null sentinels performs no resource event. -/
theorem destroyAll_replicate_null (n : Nat) :
    destroyAll (List.replicate n nullWrapper) = [] := by
  induction n with
  | zero => rfl
  | succ n ih => simp [List.replicate_succ, destroyAll, wrapperDtor_null, ih]

/-- C7: a wrapper holding a release callback `d` and an owner reference `o`
produces, at destruction, exactly the event sequence
[release d, decref o] — the callback once, then the owner decrement once,
in that order.  After `n` moves the final holder still carries the
original state, every moved-from wrapper is the null sentinel whose
destruction performs no event, and across the whole lifetime (all husks
destroyed, then the holder) the release callback runs exactly once. -/
theorem wrapper_releases_exactly_once (w : RF_StringWrapper) (d o : Nat)
    (hd : w.string.dtor = some d) (ho : w.obj = some o) (n : Nat) :
    wrapperDtor w = [Event.release d, Event.decref o] ∧
    (moveChainFrom w n).1 = w ∧
    (moveChainFrom w n).2 = List.replicate n nullWrapper ∧
    wrapperDtor nullWrapper = [] ∧
    countRelease (destroyAll (moveChainFrom w n).2 ++ wrapperDtor (moveChainFrom w n).1) = 1 := by
  have hw : wrapperDtor w = [Event.release d, Event.decref o] := by
    simp [wrapperDtor, hd, ho]
  have hc := moveChainFrom_spec w n
  refine ⟨hw, hc.1, hc.2, wrapperDtor_null, ?_⟩
  rw [hc.1, hc.2, destroyAll_replicate_null, hw]
  rfl

/-- Witness for C7: a concrete wrapper with release callback 1 and owner 2,
moved three times and then destroyed everywhere, yields one release before
one decref and exactly one release over the whole lifetime. -/
theorem wrapper_releases_exactly_once_witness :
    wrapperDtor ⟨⟨none, .RF_UINT8, 5, 3, some 1⟩, some 2⟩ =
      [Event.release 1, Event.decref 2] ∧
    countRelease
      (destroyAll (moveChainFrom ⟨⟨none, .RF_UINT8, 5, 3, some 1⟩, some 2⟩ 3).2 ++
        wrapperDtor (moveChainFrom ⟨⟨none, .RF_UINT8, 5, 3, some 1⟩, some 2⟩ 3).1) = 1 :=
  ⟨(wrapper_releases_exactly_once ⟨⟨none, .RF_UINT8, 5, 3, some 1⟩, some 2⟩ 1 2 rfl rfl 3).1,
   (wrapper_releases_exactly_once ⟨⟨none, .RF_UINT8, 5, 3, some 1⟩, some 2⟩ 1 2 rfl rfl 3).2.2.2.2⟩

/-- C10: self-move-assignment (the `&other == this` branch of
`operator=`) returns with every field of the wrapper unchanged and performs
no resource event — neither the release callback nor an owner decrement
runs, so self-move is an identity operation. -/
theorem moveAssign_self_identity (w : RF_StringWrapper) :
    moveAssign w w true = (w, w, []) := by
  rfl

/-- C8: the host-string conversion pipeline follows the width table — a
`bytes` object yields tag RF_UINT8 with `length` = byte count; 1-, 2- and
4-byte `str` storage yield tags RF_UINT8 / RF_UINT16 / RF_UINT32 with
`length` = code-unit count (never owning: no dtor, no owner); any other
object is rejected with `PythonTypeError`, which the error bridge installs
as the host's type-mismatch error (`TypeError`). -/
theorem convert_py_string_width_table (err : String) :
    (∀ a n, convert_py_string (.bytes a n) err = .ok ⟨none, .RF_UINT8, a, n, none⟩) ∧
    (∀ a n, convert_py_string (.unicode .oneByte a n) err = .ok ⟨none, .RF_UINT8, a, n, none⟩) ∧
    (∀ a n, convert_py_string (.unicode .twoByte a n) err = .ok ⟨none, .RF_UINT16, a, n, none⟩) ∧
    (∀ a n, convert_py_string (.unicode .fourByte a n) err = .ok ⟨none, .RF_UINT32, a, n, none⟩) ∧
    (convert_py_string .other err = .error (.pythonTypeError err) ∧
      classifyExn (.pythonTypeError err) = ⟨.TypeError, err⟩) := by
  exact ⟨fun a n => rfl, fun a n => rfl, fun a n => rfl, fun a n => rfl, rfl, rfl⟩

/-- C4: calling `scorer_init_f64` with any `str_count` other than 1 returns
`false` with `*self` unwritten, installs the not-supported failure
(`logic_error("Only str_count == 1 supported")`, a `RuntimeError` on the
host when no error was pending) through the error bridge, and performs zero
heap allocations — the outcome is a constant that mentions neither the
buffers nor the algorithm constructor, so no algorithm instance is built
and the buffer contents are never touched. -/
theorem scorer_init_rejects_other_counts {S : Type}
    (mk : TypedPtr → TypedPtr → Except CppExn S) (str_count : Nat)
    (strings : Nat → RF_String) (pending : Option PyErr)
    (h : str_count ≠ 1) :
    scorer_init_f64 mk str_count strings pending =
      ⟨false, none,
        CppExn2PyErrSt pending (.logicError "Only str_count == 1 supported"), 0⟩ := by
  simp [scorer_init_f64, h]

/-- Witness for C4: `str_count = 2` with a concrete buffer array, a
concrete constructor and no pending error fails with `RuntimeError`
("Only str_count == 1 supported"), no context and zero allocations. -/
theorem scorer_init_rejects_other_counts_witness :
    scorer_init_f64 (fun _ _ => Except.ok ()) 2
        (fun _ => ⟨none, .RF_UINT8, 5, 3, none⟩) none =
      ⟨false, none, some ⟨.RuntimeError, "Only str_count == 1 supported"⟩, 0⟩ :=
  scorer_init_rejects_other_counts (fun _ _ => Except.ok ()) 2
    (fun _ => ⟨none, .RF_UINT8, 5, 3, none⟩) none (by decide)

/-- C5: `scorer_func_wrapper_f64` returns `true` and writes the score
through the output slot exactly when the dispatched scoring call succeeds
(the Python error state untouched); when the dispatch or the scoring
operation throws, the exception is caught inside the wrapper — the wrapper
still returns an outcome, never propagates — the exception is handed to
the error bridge, and the wrapper returns `false` with the output slot
exactly as it was before the call (unwritten). -/
theorem scorer_func_wrapper_catches {Score : Type}
    (ratio : TypedPtr → TypedPtr → Score → Except CppExn Score)
    (str : RF_String) (score_cutoff : Score) (slot : Option Score)
    (pending : Option PyErr) :
    (∀ v, visit str (fun first last => ratio first last score_cutoff) = .ok v →
      scorer_func_wrapper_f64 ratio str score_cutoff slot pending =
        ⟨true, some v, pending⟩) ∧
    (∀ e, visit str (fun first last => ratio first last score_cutoff) = .error e →
      scorer_func_wrapper_f64 ratio str score_cutoff slot pending =
        ⟨false, slot, CppExn2PyErrSt pending e⟩) := by
  constructor
  · intro v hv
    simp [scorer_func_wrapper_f64, hv]
  · intro e he
    simp [scorer_func_wrapper_f64, he]

/-- Witness for C5: a scoring call that returns 7 on a width-8 query makes
the wrapper succeed and write 7; a scoring call that throws an
out-of-range exception makes the wrapper return `false`, leave the slot
unwritten, and install `IndexError` via the bridge. -/
theorem scorer_func_wrapper_catches_witness :
    @scorer_func_wrapper_f64 Int (fun _ _ _ => Except.ok 7)
        ⟨none, .RF_UINT8, 5, 3, none⟩ 0 none none = ⟨true, some 7, none⟩ ∧
    @scorer_func_wrapper_f64 Int
        (fun _ _ _ => Except.error (.outOfRange "idx"))
        ⟨none, .RF_UINT8, 5, 3, none⟩ 0 none none =
      ⟨false, none, some ⟨.IndexError, "idx"⟩⟩ :=
  ⟨(scorer_func_wrapper_catches (fun _ _ _ => Except.ok 7)
      ⟨none, .RF_UINT8, 5, 3, none⟩ 0 none none).1 7 rfl,
   (scorer_func_wrapper_catches (fun _ _ _ => Except.error (.outOfRange "idx"))
      ⟨none, .RF_UINT8, 5, 3, none⟩ 0 none none).2 (.outOfRange "idx") rfl⟩

end JaroWinkler
